import Mathlib

/-!
Verification of `src/pysrc/xtallography/lattices/tetragonal.py`
(`TetragonalUnitCell`): validated construction, read-only accessors, and
the conversion hook `to_julia` to the external numerical backend.

Reals are embedded as `ℚ` (exact arithmetic, decidable comparisons);
Python `ValueError` becomes a structured error recording which parameter
failed and its offending value, from which the f-string message is
assembled.  Parts of the repository outside the analyzed source
(`lattices/core.py` and the Julia backend) are modelled from the spec and
marked as such in their doc comments.
-/

namespace Xtallography

/-- Modelled from the spec: the lattice-system enumeration from
`lattices/core.py`, which is not part of the analyzed source.  The spec only
requires the tetragonal tag; other crystal systems are sibling values. -/
inductive LatticeSystem where
  | TETRAGONAL
  | CUBIC
  | ORTHORHOMBIC
  | HEXAGONAL
deriving DecidableEq, Repr

/-- Modelled from the spec: the centering enumeration from
`lattices/core.py`, which is not part of the analyzed source.  The spec
requires "a fixed set of named values including at least PRIMITIVE";
body-centered, face-centered and base-centered are the remaining
conventional Bravais centerings (face- and base-centered are not
conventionally valid for tetragonal lattices). -/
inductive Centering where
  | PRIMITIVE
  | BODY_CENTERED
  | FACE_CENTERED
  | BASE_CENTERED
deriving DecidableEq, Repr

/-- A Python `ValueError` as raised by the constructor: it records which
parameter failed validation and the offending value, exactly the data
interpolated into the f-string message in the source. -/
structure ValueError where
  param : String
  value : ℚ
deriving DecidableEq, Repr

/-- The message text carried by the `ValueError`, mirroring the f-string
in the source (backtick-quoted parameter name, then the offending value). -/
def ValueError.message (e : ValueError) : String :=
  "`" ++ e.param ++ "` must be positive. (" ++ e.param ++ "=" ++ toString e.value ++ ")"

/-- Modelled from the spec: the base unit-cell abstraction from
`lattices/core.py`, which is not part of the analyzed source: "an
initializer accepting (lattice_system, centering) and storing them as
accessible attributes `lattice_system`, `centering`". -/
structure UnitCell where
  lattice_system : LatticeSystem
  centering : Centering
deriving DecidableEq, Repr

/-- `TetragonalUnitCell`: lattice constants for a tetragonal unit cell.
It is-a `UnitCell` (the inherited header) extended with the two stored
lattice constants `_a` and `_c`. -/
structure TetragonalUnitCell extends UnitCell where
  _a : ℚ
  _c : ℚ
deriving DecidableEq, Repr

/-- Embedding of `TetragonalUnitCell.__init__`: check `a`, then check `c`
(each raising `ValueError` with the offending value), then delegate to the
parent initializer with `LatticeSystem.TETRAGONAL` and `centering`, then
store the lattice constants.  `centering` defaults to `PRIMITIVE` as in
the source signature. -/
def TetragonalUnitCell.init (a c : ℚ)
    (centering : Centering := Centering.PRIMITIVE) :
    Except ValueError TetragonalUnitCell :=
  if a ≤ 0 then
    Except.error ⟨"a", a⟩
  else if c ≤ 0 then
    Except.error ⟨"c", c⟩
  else
    Except.ok ⟨⟨LatticeSystem.TETRAGONAL, centering⟩, a, c⟩

/-- The read-only property `a`: returns the stored `_a`. -/
def TetragonalUnitCell.a (self : TetragonalUnitCell) : ℚ :=
  self._a

/-- The read-only property `c`: returns the stored `_c`. -/
def TetragonalUnitCell.c (self : TetragonalUnitCell) : ℚ :=
  self._c

/-- Attribute state of a partially-initialized Python object: each
attribute is `none` until the corresponding assignment in `__init__`
(or in the parent initializer it delegates to) has executed. -/
structure PartialCell where
  lattice_system : Option LatticeSystem
  centering : Option Centering
  _a : Option ℚ
  _c : Option ℚ
deriving DecidableEq, Repr

/-- The attribute state of a freshly allocated object, before any line of
`__init__` has run: no attribute set. -/
def PartialCell.fresh : PartialCell :=
  ⟨none, none, none, none⟩

/-- Step-ordered embedding of `TetragonalUnitCell.__init__`, returning both
the outcome and the attribute state at the moment `__init__` returned or
raised: the two argument checks run first, on the fresh state; only after
both pass does `super().__init__` store `lattice_system` and `centering`,
followed by the assignments to `_a` and `_c`. -/
def TetragonalUnitCell.initTrace (a c : ℚ) (centering : Centering) :
    Except ValueError Unit × PartialCell :=
  if a ≤ 0 then
    (Except.error ⟨"a", a⟩, PartialCell.fresh)
  else if c ≤ 0 then
    (Except.error ⟨"c", c⟩, PartialCell.fresh)
  else
    (Except.ok (), ⟨some LatticeSystem.TETRAGONAL, some centering, some a, some c⟩)

/-- Embedding of the method `to_julia`, parametric in the external backend
constructor `_JL.TetragonalLatticeConstants` (foreign code, outside the
source): the body is the single expression
`TetragonalLatticeConstants(self.a, self.c)`, whose value is returned
uninspected and unwrapped. -/
def TetragonalUnitCell.to_julia {α : Type} (TetragonalLatticeConstants : ℚ → ℚ → α)
    (self : TetragonalUnitCell) : α :=
  TetragonalLatticeConstants self.a self.c

/-- Modelled from the spec: the external backend object returned by
`TetragonalLatticeConstants(a, c)` is opaque to this unit, so it is
modelled as a record of the two positional arguments it was constructed
from (first `a`, then `c`). -/
structure JuliaTetragonalLatticeConstants where
  a : ℚ
  c : ℚ
deriving DecidableEq, Repr

/-- Instrumented backend: behaves as `B` and additionally records the list
of calls made to it, each call as its pair of positional arguments. -/
def tracedBackend {α : Type} (B : ℚ → ℚ → α) : ℚ → ℚ → α × List (ℚ × ℚ) :=
  fun x y => (B x y, [(x, y)])

/-- Method-call embedding of `self.to_julia()`: a Python method receives
the object and may reassign its attributes; this body assigns none, so the
object handed back to the caller is exactly the object received, alongside
the returned backend value. -/
def TetragonalUnitCell.to_julia_call {α : Type} (B : ℚ → ℚ → α)
    (self : TetragonalUnitCell) : TetragonalUnitCell × α :=
  (self, self.to_julia B)

/-- The outcome of the step-ordered trace agrees with the plain
constructor embedding: they raise the same error, or both succeed. -/
theorem initTrace_matches_init (a c : ℚ) (cen : Centering) :
    (TetragonalUnitCell.initTrace a c cen).1 =
      (TetragonalUnitCell.init a c cen).map (fun _ => ()) := by
  unfold TetragonalUnitCell.init TetragonalUnitCell.initTrace
  by_cases ha : a ≤ 0
  · simp [ha, Except.map]
  · by_cases hc : c ≤ 0
    · simp [ha, hc, Except.map]
    · simp [ha, hc, Except.map]

/-- C1: for every a > 0 and c > 0 and any centering value, construction
succeeds, and the read-only properties `a` and `c` return exactly the
supplied values — no conversion, no rounding. -/
theorem C1_construct_succeeds_and_accessors_exact (a c : ℚ) (centering : Centering)
    (ha : 0 < a) (hc : 0 < c) :
    ∃ cell, TetragonalUnitCell.init a c centering = Except.ok cell ∧
      cell.a = a ∧ cell.c = c := by
  refine ⟨⟨⟨LatticeSystem.TETRAGONAL, centering⟩, a, c⟩, ?_, rfl, rfl⟩
  unfold TetragonalUnitCell.init
  rw [if_neg (not_le.mpr ha), if_neg (not_le.mpr hc)]

/-- C1 witness at a = 3, c = 5, primitive centering. -/
theorem C1_witness :
    (0 : ℚ) < 3 ∧ (0 : ℚ) < 5 ∧
      ∃ cell, TetragonalUnitCell.init 3 5 Centering.PRIMITIVE = Except.ok cell ∧
        cell.a = 3 ∧ cell.c = 5 :=
  ⟨by norm_num, by norm_num,
    C1_construct_succeeds_and_accessors_exact 3 5 Centering.PRIMITIVE
      (by norm_num) (by norm_num)⟩

/-- C2: for every a ≤ 0 and every c > 0, construction fails with a
`ValueError` that references `a` and cites the offending value of `a`;
no object is produced. -/
theorem C2_reject_nonpositive_a (a c : ℚ) (centering : Centering)
    (ha : a ≤ 0) (hc : 0 < c) :
    TetragonalUnitCell.init a c centering = Except.error ⟨"a", a⟩ := by
  unfold TetragonalUnitCell.init
  rw [if_pos ha]

/-- C2 witness at a = -3/2, c = 1 (the spec example a = -1.5). -/
theorem C2_witness :
    (-3 / 2 : ℚ) ≤ 0 ∧ (0 : ℚ) < 1 ∧
      TetragonalUnitCell.init (-3 / 2) 1 Centering.PRIMITIVE =
        Except.error ⟨"a", -3 / 2⟩ :=
  ⟨by norm_num, by norm_num,
    C2_reject_nonpositive_a (-3 / 2) 1 Centering.PRIMITIVE (by norm_num) (by norm_num)⟩

/-- C3: for every a > 0 and every c ≤ 0, construction fails with a
`ValueError` that references `c` and cites the offending value of `c`;
no object is produced. -/
theorem C3_reject_nonpositive_c (a c : ℚ) (centering : Centering)
    (ha : 0 < a) (hc : c ≤ 0) :
    TetragonalUnitCell.init a c centering = Except.error ⟨"c", c⟩ := by
  unfold TetragonalUnitCell.init
  rw [if_neg (not_le.mpr ha), if_pos hc]

/-- C3 witness at a = 1, c = -2 (the spec example c = -2). -/
theorem C3_witness :
    (0 : ℚ) < 1 ∧ (-2 : ℚ) ≤ 0 ∧
      TetragonalUnitCell.init 1 (-2) Centering.PRIMITIVE =
        Except.error ⟨"c", -2⟩ :=
  ⟨by norm_num, by norm_num,
    C3_reject_nonpositive_c 1 (-2) Centering.PRIMITIVE (by norm_num) (by norm_num)⟩

/-- C4: validation checks `a` before `c` — when both are nonpositive the
raised error concerns `a` — and construction raises an error if and only
if a ≤ 0 or c ≤ 0. -/
theorem C4_validation_order_and_error_iff (a c : ℚ) (centering : Centering) :
    (a ≤ 0 → c ≤ 0 → TetragonalUnitCell.init a c centering = Except.error ⟨"a", a⟩) ∧
      ((∃ e, TetragonalUnitCell.init a c centering = Except.error e) ↔ (a ≤ 0 ∨ c ≤ 0)) := by
  constructor
  · intro ha _
    unfold TetragonalUnitCell.init
    rw [if_pos ha]
  · unfold TetragonalUnitCell.init
    by_cases ha : a ≤ 0
    · simp [ha]
    · by_cases hc : c ≤ 0
      · simp [ha, hc]
      · simp [ha, hc]

/-- C4 witness: at a = -1, c = -2 (both invalid) the error concerns `a`. -/
theorem C4_witness :
    (-1 : ℚ) ≤ 0 ∧ (-2 : ℚ) ≤ 0 ∧
      TetragonalUnitCell.init (-1) (-2) Centering.PRIMITIVE =
        Except.error ⟨"a", -1⟩ :=
  ⟨by norm_num, by norm_num,
    (C4_validation_order_and_error_iff (-1) (-2) Centering.PRIMITIVE).1
      (by norm_num) (by norm_num)⟩

/-- C5: `to_julia` invokes the backend constructor exactly once, with the
stored values (a, c) passed positionally in that order, and returns
whatever that call returns, uninspected and unwrapped; a backend error is
propagated unchanged. -/
theorem C5_to_julia_delegates {α : Type} (self : TetragonalUnitCell)
    (B : ℚ → ℚ → α) :
    self.to_julia B = B self.a self.c ∧
      self.to_julia (tracedBackend B) = (B self.a self.c, [(self.a, self.c)]) ∧
      (∀ (ε β : Type) (Bf : ℚ → ℚ → Except ε β) (e : ε),
        Bf self.a self.c = Except.error e → self.to_julia Bf = Except.error e) :=
  ⟨rfl, rfl, fun _ _ _ _ h => h⟩

/-- C5 witness: a failing backend's error propagates unchanged from the
cell with a = 3, c = 5. -/
theorem C5_witness :
    TetragonalUnitCell.to_julia
        (fun _ _ => (Except.error ("backend failure") :
          Except String JuliaTetragonalLatticeConstants))
        ⟨⟨LatticeSystem.TETRAGONAL, Centering.PRIMITIVE⟩, 3, 5⟩ =
      Except.error ("backend failure") :=
  (C5_to_julia_delegates ⟨⟨LatticeSystem.TETRAGONAL, Centering.PRIMITIVE⟩, 3, 5⟩
      (fun _ _ => (Except.error ("backend failure") :
        Except String JuliaTetragonalLatticeConstants))).2.2
    String JuliaTetragonalLatticeConstants
    (fun _ _ => Except.error ("backend failure")) ("backend failure") rfl

/-- C6: every successfully constructed cell has `lattice_system` equal to
the tetragonal tag, regardless of constructor arguments, and no operation
of the class (in particular a `to_julia` call) changes it. -/
theorem C6_lattice_system_always_tetragonal (a c : ℚ) (centering : Centering)
    (cell : TetragonalUnitCell)
    (h : TetragonalUnitCell.init a c centering = Except.ok cell) :
    cell.lattice_system = LatticeSystem.TETRAGONAL ∧
      (∀ (α : Type) (B : ℚ → ℚ → α),
        (cell.to_julia_call B).1.lattice_system = LatticeSystem.TETRAGONAL) := by
  have h1 : cell.lattice_system = LatticeSystem.TETRAGONAL := by
    unfold TetragonalUnitCell.init at h
    by_cases ha : a ≤ 0
    · rw [if_pos ha] at h
      exact Except.noConfusion h
    · rw [if_neg ha] at h
      by_cases hc : c ≤ 0
      · rw [if_pos hc] at h
        exact Except.noConfusion h
      · rw [if_neg hc] at h
        injection h with h2
        subst h2
        rfl
  exact ⟨h1, fun _ _ => h1⟩

/-- C6 witness: the cell built from (3, 5, BODY_CENTERED) carries the
tetragonal tag. -/
theorem C6_witness :
    TetragonalUnitCell.init 3 5 Centering.BODY_CENTERED =
        Except.ok ⟨⟨LatticeSystem.TETRAGONAL, Centering.BODY_CENTERED⟩, 3, 5⟩ ∧
      (⟨⟨LatticeSystem.TETRAGONAL, Centering.BODY_CENTERED⟩, 3, 5⟩ :
          TetragonalUnitCell).lattice_system = LatticeSystem.TETRAGONAL :=
  ⟨by rfl,
    (C6_lattice_system_always_tetragonal 3 5 Centering.BODY_CENTERED
      ⟨⟨LatticeSystem.TETRAGONAL, Centering.BODY_CENTERED⟩, 3, 5⟩ (by rfl)).1⟩

/-- C7: when the centering argument is omitted the constructed cell's
centering equals PRIMITIVE; when a centering value is passed explicitly,
that exact value is stored and retrievable unchanged. -/
theorem C7_centering_default_and_stored (a c : ℚ) (ha : 0 < a) (hc : 0 < c) :
    (∀ cell, TetragonalUnitCell.init a c = Except.ok cell →
        cell.centering = Centering.PRIMITIVE) ∧
      (∀ (centering : Centering) cell,
        TetragonalUnitCell.init a c centering = Except.ok cell →
          cell.centering = centering) := by
  have key : ∀ (cen : Centering) cell,
      TetragonalUnitCell.init a c cen = Except.ok cell → cell.centering = cen := by
    intro cen cell h
    unfold TetragonalUnitCell.init at h
    rw [if_neg (not_le.mpr ha), if_neg (not_le.mpr hc)] at h
    injection h with h2
    subst h2
    rfl
  exact ⟨key Centering.PRIMITIVE, key⟩

/-- C7 witness at a = 3, c = 5: the default gives PRIMITIVE and an
explicit BASE_CENTERED is stored unchanged. -/
theorem C7_witness :
    (0 : ℚ) < 3 ∧ (0 : ℚ) < 5 ∧
      (⟨⟨LatticeSystem.TETRAGONAL, Centering.PRIMITIVE⟩, 3, 5⟩ :
          TetragonalUnitCell).centering = Centering.PRIMITIVE ∧
      (⟨⟨LatticeSystem.TETRAGONAL, Centering.BASE_CENTERED⟩, 3, 5⟩ :
          TetragonalUnitCell).centering = Centering.BASE_CENTERED :=
  ⟨by norm_num, by norm_num,
    (C7_centering_default_and_stored 3 5 (by norm_num) (by norm_num)).1
      ⟨⟨LatticeSystem.TETRAGONAL, Centering.PRIMITIVE⟩, 3, 5⟩ (by rfl),
    (C7_centering_default_and_stored 3 5 (by norm_num) (by norm_num)).2
      Centering.BASE_CENTERED
      ⟨⟨LatticeSystem.TETRAGONAL, Centering.BASE_CENTERED⟩, 3, 5⟩ (by rfl)⟩

/-- C8: calling `to_julia` twice on the same cell leaves the object
unchanged after each call (so every field is unchanged), the two backend
values are equal in content, and for the modelled backend each call builds
its object from the same pair (a, c). -/
theorem C8_to_julia_no_mutation_and_equal_results {α : Type}
    (cell : TetragonalUnitCell) (B : ℚ → ℚ → α) :
    (cell.to_julia_call B).1 = cell ∧
      ((cell.to_julia_call B).1.to_julia_call B).1 = cell ∧
      ((cell.to_julia_call B).1.to_julia_call B).2 = (cell.to_julia_call B).2 ∧
      cell.to_julia_call (fun x y => JuliaTetragonalLatticeConstants.mk x y) =
        (cell, ⟨cell.a, cell.c⟩) :=
  ⟨rfl, rfl, rfl, rfl⟩

/-- C9: the constructor performs no validation of the centering value
against the centerings allowed for tetragonal lattices: every member of
the Centering enumeration is accepted and stored when a > 0 and c > 0. -/
theorem C9_no_centering_cross_check (centering : Centering) (a c : ℚ)
    (ha : 0 < a) (hc : 0 < c) :
    ∃ cell, TetragonalUnitCell.init a c centering = Except.ok cell ∧
      cell.centering = centering := by
  refine ⟨⟨⟨LatticeSystem.TETRAGONAL, centering⟩, a, c⟩, ?_, rfl⟩
  unfold TetragonalUnitCell.init
  rw [if_neg (not_le.mpr ha), if_neg (not_le.mpr hc)]

/-- C9 witness: FACE_CENTERED — not conventionally valid for tetragonal
lattices — is accepted and stored at a = 1, c = 1. -/
theorem C9_witness :
    (0 : ℚ) < 1 ∧
      ∃ cell, TetragonalUnitCell.init 1 1 Centering.FACE_CENTERED = Except.ok cell ∧
        cell.centering = Centering.FACE_CENTERED :=
  ⟨by norm_num,
    C9_no_centering_cross_check Centering.FACE_CENTERED 1 1 (by norm_num) (by norm_num)⟩

/-- C10: construction is atomic on error — when a ≤ 0 or c ≤ 0 the
initializer raises before the parent initializer runs and before any
lattice constant is stored, so the attribute state is still the fresh
state with no attribute set. -/
theorem C10_construction_atomic_on_error (a c : ℚ) (centering : Centering)
    (h : a ≤ 0 ∨ c ≤ 0) :
    (∃ e, (TetragonalUnitCell.initTrace a c centering).1 = Except.error e) ∧
      (TetragonalUnitCell.initTrace a c centering).2 = ⟨none, none, none, none⟩ := by
  unfold TetragonalUnitCell.initTrace
  by_cases ha : a ≤ 0
  · rw [if_pos ha]
    exact ⟨⟨⟨"a", a⟩, rfl⟩, rfl⟩
  · rw [if_neg ha]
    have hc : c ≤ 0 := h.resolve_left ha
    rw [if_pos hc]
    exact ⟨⟨⟨"c", c⟩, rfl⟩, rfl⟩

/-- C10 witness at a = 0, c = 5: the failed initializer leaves every
attribute unset. -/
theorem C10_witness :
    ((0 : ℚ) ≤ 0 ∨ (5 : ℚ) ≤ 0) ∧
      (∃ e, (TetragonalUnitCell.initTrace 0 5 Centering.PRIMITIVE).1 = Except.error e) ∧
      (TetragonalUnitCell.initTrace 0 5 Centering.PRIMITIVE).2 =
        ⟨none, none, none, none⟩ :=
  ⟨Or.inl (by norm_num),
    C10_construction_atomic_on_error 0 5 Centering.PRIMITIVE (Or.inl (by norm_num))⟩

end Xtallography
